import Mathlib

/-!
# Verification of the otel-collector-proxy core

Shallow embedding of the core of `otel_collector_proxy` (a forwarding proxy
for telemetry-collector backends) and proofs about it:

* `core/config.py` — the `Environment` enum;
* `core/response.py` — `MaskedResponse.__call__`, the environment-dependent
  response-masking policy;
* `core/rate_limit.py` — `RateLimiter`, a fixed-window in-memory rate limiter
  with opportunistic cleanup;
* `main.py` — the `/api/v1/traces` request handler (`traces`), its data-type
  selector dependency (`get_otel_client`) and `forward_traces`;
* `core/middleware/request_id.py` / `core/middleware/configure.py` — the
  request-id middleware and its configured id factory.

Python byte strings are modelled as `List Nat` and the mutable per-process
state of the rate limiter as an explicit value threaded through each call.
Monotonic-clock timestamps (`time.monotonic()`, real-valued seconds) are
modelled as integers `ℤ`: the code only subtracts and compares timestamps
against the configured window length, so the stated properties are uniform
under scaling of the time axis, and integer-valued sample times lose no
generality for any claim proved here.  Header names are taken to be lower-case, as the ASGI spec
requires of servers.
-/

/-! ## Environment (`core/config.py`) -/

/-- The `Environment` enum of `core/config.py`. -/
inductive Environment
  | TESTING
  | DEVELOPMENT
  | STAGING
  | PRODUCTION
deriving DecidableEq, Repr

/-- `Environment.is_production` from `core/config.py`:
`self == Environment.PRODUCTION`. -/
def Environment.is_production : Environment → Bool
  | .PRODUCTION => true
  | _ => false

/-! ## Masking policy (`core/response.py`) -/

/-- A `MaskedResponse` as constructed by the handler code: the `content`
bytes, the `status_code`, and the `media_type` passed to the constructor.
This is the "candidate outcome" that `MaskedResponse.__call__` later sends. -/
structure MaskedResponse where
  status_code : Nat
  body : List Nat
  media_type : Option String
deriving DecidableEq, Repr

/-- The externally observable response that leaves the process: status code,
body bytes, content type, and the value of the `x-m-r` marker header when
present. -/
structure SentResponse where
  status_code : Nat
  body : List Nat
  media_type : Option String
  x_m_r : Option String
deriving DecidableEq, Repr

/-- `MaskedResponse.__call__` from `core/response.py`, as a function from the
environment and the response to what is sent on the wire: in production the
status code is replaced by `204`, the body emptied, headers re-initialised
(the media type is kept), and the marker header `x-m-r: 1` appended; in any
other environment the response is sent verbatim with no marker header. -/
def MaskedResponse.render (env : Environment) (r : MaskedResponse) : SentResponse :=
  if env.is_production then
    { status_code := 204, body := [], media_type := r.media_type, x_m_r := some "1" }
  else
    { status_code := r.status_code, body := r.body, media_type := r.media_type, x_m_r := none }

/-! ## Rate limiter (`core/rate_limit.py`) -/

/-- `RateLimitItem` from `core/rate_limit.py`: per-key request count and
window start time. -/
structure RateLimitItem where
  count : Nat
  start_time : ℤ
deriving DecidableEq, Repr

/-- The `RateLimiter` object: configured limit and window, the
`defaultdict` storage (modelled as a map from keys to optional entries),
and the `_last_cleanup` timestamp. -/
structure RateLimiter where
  requests_limit : Nat
  window_seconds : Nat
  storage : String → Option RateLimitItem
  last_cleanup : ℤ

/-- `RateLimiter.__init__`: empty storage, `_last_cleanup` set to the
current monotonic time. -/
def RateLimiter.init (requests_limit window_seconds : Nat) (now : ℤ) : RateLimiter :=
  { requests_limit := requests_limit
    window_seconds := window_seconds
    storage := fun _ => none
    last_cleanup := now }

/-- Store an entry under a key (a Python dict item assignment). -/
def updateStorage (st : String → Option RateLimitItem) (key : String)
    (item : RateLimitItem) : String → Option RateLimitItem :=
  fun k => if k = key then some item else st k

/-- `RateLimiter._maybe_cleanup`: if less than `10 * window_seconds` elapsed
since the last cleanup, do nothing; otherwise record the cleanup time and
delete every entry whose `start_time` is older than `now - 2 * window_seconds`. -/
def RateLimiter.maybe_cleanup (s : RateLimiter) (now : ℤ) : RateLimiter :=
  if now - s.last_cleanup < 10 * (s.window_seconds : ℤ) then s
  else
    { s with
      last_cleanup := now
      storage := fun k =>
        match s.storage k with
        | some v => if v.start_time < now - 2 * (s.window_seconds : ℤ) then none else some v
        | none => none }

/-- The admission core of `RateLimiter.is_allowed` (after the cleanup call):
fetch-or-create the entry for `key` (the `defaultdict` creates
`RateLimitItem(count=0, start_time=now)` on first access), reset it when the
window expired (`now - start_time > window_seconds`), deny without a further
increment when `count >= requests_limit`, otherwise increment and allow.
Note that the fetched (and possibly reset) entry is stored even on denial,
exactly as the Python in-place mutation of the `defaultdict` entry does. -/
def RateLimiter.admitCore (s : RateLimiter) (key : String) (now : ℤ) : Bool × RateLimiter :=
  let fetched := (s.storage key).getD { count := 0, start_time := now }
  let item :=
    if (s.window_seconds : ℤ) < now - fetched.start_time then
      ({ count := 0, start_time := now } : RateLimitItem)
    else fetched
  if s.requests_limit ≤ item.count then
    (false, { s with storage := updateStorage s.storage key item })
  else
    (true,
      { s with storage := updateStorage s.storage key ⟨item.count + 1, item.start_time⟩ })

/-- `RateLimiter.is_allowed`: read the clock (here `now` is an explicit
argument), run the opportunistic cleanup, then the admission steps. -/
def RateLimiter.is_allowed (s : RateLimiter) (key : String) (now : ℤ) : Bool × RateLimiter :=
  (s.maybe_cleanup now).admitCore key now

/-- A limiter step that never deletes entries: `is_allowed` with the
`_maybe_cleanup` call removed, everything else identical.  This is the
comparison point for the refinement claim that the cleanup sweep is
observationally pure with respect to admission. -/
def RateLimiter.is_allowed_nodelete (s : RateLimiter) (key : String) (now : ℤ) :
    Bool × RateLimiter :=
  s.admitCore key now

/-- Run a sequence of `(key, time)` admission calls through a limiter step
function, collecting the boolean decisions and the final state. -/
def runWith (step : RateLimiter → String → ℤ → Bool × RateLimiter) :
    RateLimiter → List (String × ℤ) → List Bool × RateLimiter
  | s, [] => ([], s)
  | s, (k, t) :: calls =>
    let r := step s k t
    let rest := runWith step r.2 calls
    (r.1 :: rest.1, rest.2)

/-! ## Request handling (`main.py`) -/

/-- ASCII bytes of a Python byte-string literal such as `b"Payload too large"`. -/
def bstr (s : String) : List Nat :=
  s.toList.map Char.toNat

/-- The digits of a decimal numeral, or `none` if the character list is empty
or contains a non-digit. -/
def digitsToNat (cs : List Char) : Option Nat :=
  match cs with
  | [] => none
  | _ =>
    cs.foldl
      (fun acc c => acc.bind (fun n => if c.isDigit then some (10 * n + (c.toNat - 48)) else none))
      (some 0)

/-- Python `int(s)` on a header string: an optional sign followed by decimal
digits parses to the integer; anything else (e.g. `"abc"`) raises
`ValueError`, modelled as `none`.  (Surrounding whitespace and underscore
digit grouping, which Python also accepts, are not modelled; no claim
depends on them.) -/
def pyInt? (s : String) : Option Int :=
  match s.toList with
  | '-' :: rest => (digitsToNat rest).map (fun n => -(n : Int))
  | '+' :: rest => (digitsToNat rest).map (fun n => (n : Int))
  | cs => (digitsToNat cs).map (fun n => (n : Int))

/-- First value stored under a header name (header names lower-case). -/
def headerGet (hs : List (String × String)) (k : String) : Option String :=
  (hs.find? (fun p => p.1 == k)).map (fun p => p.2)

/-- Replace the value stored under a key, or append the pair (a Python dict
item assignment on a dict represented as an association list). -/
def dictSet (hs : List (String × String)) (k v : String) : List (String × String) :=
  match hs with
  | [] => [(k, v)]
  | (k', v') :: rest => if k' = k then (k, v) :: rest else (k', v') :: dictSet rest k v

/-- Modelled from the spec: `core/data_type.py` is not among the provided
sources.  The accepted data-type selector values are taken from the spec's
closed enumeration of accepted selector values and from the repository's
tests (`test_accepted_x_data_type_values`: "opentelemetry-sdk" and "faro"
are the values accepted by the endpoint dependency). -/
def DataType.OPENTELEMETRY_SDK : String := "opentelemetry-sdk"

/-- Modelled from the spec: the second accepted data-type selector value,
see `DataType.OPENTELEMETRY_SDK`. -/
def DataType.FARO : String := "faro"

/-- The two configured upstream targets (`DataReceiver` instances built from
the lifespan clients in `main.py`). -/
inductive DataReceiver
  | otel_collector
  | otel_collector_faro
deriving DecidableEq, Repr

/-- A structured domain error (`OtelProxyError` of `core/exceptions.py`):
status code, error text, symbolic code, optional detail. -/
structure ProxyError where
  status_code : Nat
  error : String
  code : Option String
  detail : Option String
deriving DecidableEq, Repr

/-- `get_otel_client` from `main.py`: match the `x-data-type` header value
against the accepted selector values; any other value, including a missing
header, raises `BadRequest(code=UNEXPECTED_DATA_TYPE, error="Unexpected data
type")`. -/
def get_otel_client (x_data_type : Option String) : Except ProxyError DataReceiver :=
  if x_data_type = some DataType.OPENTELEMETRY_SDK then .ok .otel_collector
  else if x_data_type = some DataType.FARO then .ok .otel_collector_faro
  else .error { status_code := 400, error := "Unexpected data type",
                code := some "UNEXPECTED_DATA_TYPE", detail := none }

/-- The result of the upstream HTTP call made by `forward_traces`: either a
response from the collector, or a transport-level `httpx.RequestError`. -/
inductive UpstreamResult
  | response (status_code : Nat) (content : List Nat) (content_type : Option String)
  | requestError (msg : String)
deriving DecidableEq, Repr

/-- `forward_traces` from `main.py`, given the result of the upstream call:
on success mirror the collector's status code, content and content type; on
`httpx.RequestError` return a `502` with body `b"Failed to forward traces"`.
No retry is attempted. -/
def forward_traces (u : UpstreamResult) : MaskedResponse :=
  match u with
  | .response sc content ct => { status_code := sc, body := content, media_type := ct }
  | .requestError _ => { status_code := 502, body := bstr "Failed to forward traces",
                         media_type := none }

/-- An inbound request to `/api/v1/traces`: the connection's remote address
(`request.client`), the request headers (lower-case names, per the ASGI
spec), and the body bytes. -/
structure TracesRequest where
  client_host : Option String
  headers : List (String × String)
  body : List Nat
deriving DecidableEq, Repr

/-- The configuration values the handler reads (`core/config.py`
`Settings`); the rate-limit settings only feed `RateLimiter.init` and are
carried by the limiter state itself. -/
structure Settings where
  ENVIRONMENT : Environment
  MAX_BODY_SIZE : Nat
deriving DecidableEq, Repr

/-- What one request produces at the framework boundary:
* `response r` — the handler returned the `MaskedResponse` `r` (sent through
  `MaskedResponse.__call__`, i.e. through the masking policy);
* `errorResponse e` — an `OtelProxyError` was raised and rendered by the
  exception handler of `core/exception_handlers.py` as a
  `SecureJSONResponse` (also a `MaskedResponse`, so also masked);
* `uncaught exc` — an exception no registered handler catches escaped the
  handler; the framework's plain 500 response does not pass through the
  masking policy. -/
inductive TracesResult
  | response (r : MaskedResponse)
  | errorResponse (e : ProxyError)
  | uncaught (exc : String)
deriving DecidableEq, Repr

/-- Everything observable about one handled request: the result, the final
rate-limiter state, how many times `is_allowed` was called, whether
`await request.body()` was executed, whether a synchronous forward happened,
and whether a background (deferred) forward was scheduled. -/
structure HandlerOutput where
  result : TracesResult
  limiter : RateLimiter
  allowCalls : Nat
  bodyRead : Bool
  forwardedSync : Bool
  deferred : Bool

/-- `MaskedResponse(content=b"", status_code=204)` as returned on the
production paths of the handler. -/
def empty204 : MaskedResponse :=
  ⟨204, [], none⟩

/-- `MaskedResponse(content=b"Payload too large", status_code=413)`. -/
def payloadTooLarge413 : MaskedResponse :=
  ⟨413, bstr "Payload too large", none⟩

/-- `MaskedResponse(content=b"Too Many Requests", status_code=429)`. -/
def tooManyRequests429 : MaskedResponse :=
  ⟨429, bstr "Too Many Requests", none⟩

/-- `MaskedResponse(content=b"Missing Content-Type header", status_code=400)`. -/
def missingContentType400 : MaskedResponse :=
  ⟨400, bstr "Missing Content-Type header", none⟩

/-- The part of the `traces` handler from the body read onwards: the 413
actual-length fallback check, the forwarded-header filtering (drop `host`
and `content-length`), the required `content-type` header, and the dispatch
decision (deferred background forward in production, synchronous forward
otherwise). -/
def tracesBodyStage (st : Settings) (rl : RateLimiter) (req : TracesRequest)
    (receiver : DataReceiver)
    (upstream : DataReceiver → List Nat → List (String × String) → UpstreamResult) :
    HandlerOutput :=
  if st.MAX_BODY_SIZE < req.body.length then
    ⟨.response payloadTooLarge413, rl, 1, true, false, false⟩
  else
    let fwd := req.headers.filter (fun p => ¬(p.1 = "host" ∨ p.1 = "content-length"))
    match headerGet req.headers "content-type" with
    | some ct =>
      let fwd := dictSet fwd "content-type" ct
      if st.ENVIRONMENT.is_production then
        ⟨.response empty204, rl, 1, true, false, true⟩
      else
        ⟨.response (forward_traces (upstream receiver req.body fwd)), rl, 1, true, true, false⟩
    | none =>
      ⟨.response missingContentType400, rl, 1, true, false, false⟩

/-- The size pre-check of the `traces` handler: when a non-empty
`content-length` header is present, `int(content_length)` is compared with
`MAX_BODY_SIZE` before the body is read; a non-numeric value makes `int`
raise an uncaught `ValueError`. -/
def tracesSizeStage (st : Settings) (rl : RateLimiter) (req : TracesRequest)
    (receiver : DataReceiver)
    (upstream : DataReceiver → List Nat → List (String × String) → UpstreamResult) :
    HandlerOutput :=
  match headerGet req.headers "content-length" with
  | some cl =>
    if cl = "" then tracesBodyStage st rl req receiver upstream
    else
      match pyInt? cl with
      | none =>
        ⟨.uncaught "ValueError", rl, 1, false, false, false⟩
      | some n =>
        if (st.MAX_BODY_SIZE : Int) < n then
          ⟨.response payloadTooLarge413, rl, 1, false, false, false⟩
        else tracesBodyStage st rl req receiver upstream
  | none => tracesBodyStage st rl req receiver upstream

/-- The `traces` handler body once its dependencies resolved: derive the
client key from the remote address (literal `"unknown"` when absent), ask
the rate limiter, and on denial return `204` (production) or
`429 b"Too Many Requests"` without reading the body or forwarding. -/
def tracesHandlerBody (st : Settings) (rl : RateLimiter) (now : ℤ) (req : TracesRequest)
    (receiver : DataReceiver)
    (upstream : DataReceiver → List Nat → List (String × String) → UpstreamResult) :
    HandlerOutput :=
  let client_ip := req.client_host.getD "unknown"
  let ar := rl.is_allowed client_ip now
  if ar.1 then tracesSizeStage st ar.2 req receiver upstream
  else if st.ENVIRONMENT.is_production then
    ⟨.response empty204, ar.2, 1, false, false, false⟩
  else
    ⟨.response tooManyRequests429, ar.2, 1, false, false, false⟩

/-- One inbound request to `POST /api/v1/traces`, end to end at the
application level: FastAPI first resolves the `DataReceiverDep` dependency
(`get_otel_client`), so an unrecognized or missing `x-data-type` header
raises `BadRequest` before the handler body runs — the rate limiter is not
consulted on that path and the exception handler renders the error; only
then does the handler body run. -/
def handleTraces (st : Settings) (rl : RateLimiter) (now : ℤ) (req : TracesRequest)
    (upstream : DataReceiver → List Nat → List (String × String) → UpstreamResult) :
    HandlerOutput :=
  match get_otel_client (headerGet req.headers "x-data-type") with
  | .error e =>
    { result := .errorResponse e, limiter := rl, allowCalls := 0, bodyRead := false,
      forwardedSync := false, deferred := false }
  | .ok receiver => tracesHandlerBody st rl now req receiver upstream

/-! ## Request-id middleware (`core/middleware/request_id.py`,
`core/middleware/configure.py`) -/

/-- The part of an ASGI HTTP scope the request-id middleware can see:
the inbound request headers. -/
structure HttpScope where
  headers : List (String × String)
deriving DecidableEq, Repr

/-- The id factory installed by `core/middleware/configure.py`:
`id_factory=lambda _: str(uuid.uuid4())`.  It ignores the scope — and with
it any caller-supplied request-id header — and returns the freshly generated
uuid (passed here as `uuid`, since the model is deterministic). -/
def configured_id_factory (uuid : String) (_scope : HttpScope) : String :=
  uuid

/-- `RequestIdMiddleware.__call__` restricted to its externally observable
effect on the `http.response.start` headers: compute
`request_id = id_factory(scope)`, and append `(header_name, request_id)` to
the response headers when `request_id` is truthy (a non-empty string). -/
def RequestIdMiddleware.responseHeaders (header_name : String)
    (id_factory : HttpScope → String) (scope : HttpScope)
    (response_headers : List (String × String)) : List (String × String) :=
  let request_id := id_factory scope
  if request_id ≠ "" then response_headers ++ [(header_name, request_id)]
  else response_headers

/-! ## Lemmas about the rate limiter -/

theorem updateStorage_self (st : String → Option RateLimitItem) (key : String)
    (item : RateLimitItem) : updateStorage st key item key = some item := by
  simp [updateStorage]

theorem updateStorage_other (st : String → Option RateLimitItem) (key : String)
    (item : RateLimitItem) (k : String) (h : k ≠ key) :
    updateStorage st key item k = st k := by
  simp [updateStorage, h]

theorem maybe_cleanup_requests_limit (s : RateLimiter) (now : ℤ) :
    (s.maybe_cleanup now).requests_limit = s.requests_limit := by
  unfold RateLimiter.maybe_cleanup
  split <;> rfl

theorem maybe_cleanup_window_seconds (s : RateLimiter) (now : ℤ) :
    (s.maybe_cleanup now).window_seconds = s.window_seconds := by
  unfold RateLimiter.maybe_cleanup
  split <;> rfl

theorem maybe_cleanup_storage_none (s : RateLimiter) (now : ℤ) (k : String)
    (h : s.storage k = none) : (s.maybe_cleanup now).storage k = none := by
  unfold RateLimiter.maybe_cleanup
  split
  · exact h
  · simp [h]

theorem maybe_cleanup_storage_keeps (s : RateLimiter) (now : ℤ) (k : String)
    (v : RateLimitItem) (h : s.storage k = some v)
    (hfresh : ¬ v.start_time < now - 2 * (s.window_seconds : ℤ)) :
    (s.maybe_cleanup now).storage k = some v := by
  unfold RateLimiter.maybe_cleanup
  split
  · exact h
  · simp [h, hfresh]

theorem maybe_cleanup_storage_cases (s : RateLimiter) (now : ℤ) (k : String) :
    (s.maybe_cleanup now).storage k = s.storage k ∨
      ((s.maybe_cleanup now).storage k = none ∧
        ∃ v, s.storage k = some v ∧ v.start_time < now - 2 * (s.window_seconds : ℤ)) := by
  unfold RateLimiter.maybe_cleanup
  split
  · exact Or.inl rfl
  · cases hv : s.storage k with
    | none => exact Or.inl (by simp [hv])
    | some v =>
      by_cases hst : v.start_time < now - 2 * (s.window_seconds : ℤ)
      · exact Or.inr ⟨by simp [hv, hst], v, rfl, hst⟩
      · exact Or.inl (by simp [hv, hst])

theorem admitCore_requests_limit (s : RateLimiter) (key : String) (now : ℤ) :
    (s.admitCore key now).2.requests_limit = s.requests_limit := by
  simp only [RateLimiter.admitCore]
  split <;> split <;> rfl

theorem admitCore_window_seconds (s : RateLimiter) (key : String) (now : ℤ) :
    (s.admitCore key now).2.window_seconds = s.window_seconds := by
  simp only [RateLimiter.admitCore]
  split <;> split <;> rfl


/-- The limiter state after storing one entry, all other fields unchanged
(the net effect of the storage mutations in `is_allowed`). -/
def RateLimiter.storeAt (s : RateLimiter) (key : String) (item : RateLimitItem) : RateLimiter :=
  { s with storage := updateStorage s.storage key item }

theorem storeAt_storage_self (s : RateLimiter) (key : String) (item : RateLimitItem) :
    (s.storeAt key item).storage key = some item :=
  updateStorage_self _ _ _

theorem storeAt_storage_other (s : RateLimiter) (key : String) (item : RateLimitItem)
    (k : String) (h : k ≠ key) : (s.storeAt key item).storage k = s.storage k :=
  updateStorage_other _ _ _ _ h

theorem storeAt_requests_limit (s : RateLimiter) (key : String) (item : RateLimitItem) :
    (s.storeAt key item).requests_limit = s.requests_limit := rfl

theorem storeAt_window_seconds (s : RateLimiter) (key : String) (item : RateLimitItem) :
    (s.storeAt key item).window_seconds = s.window_seconds := rfl

/-- `admitCore` at a key whose entry exists and whose window has not expired:
the decision is `count < requests_limit`, and the stored entry keeps its
window start, incremented only on admission. -/
theorem admitCore_of_fresh (s : RateLimiter) (key : String) (now : ℤ)
    (c : Nat) (t0 : ℤ) (hs : s.storage key = some ⟨c, t0⟩)
    (hw : now - t0 ≤ (s.window_seconds : ℤ)) :
    s.admitCore key now =
      (decide (c < s.requests_limit),
        s.storeAt key ⟨if c < s.requests_limit then c + 1 else c, t0⟩) := by
  unfold RateLimiter.admitCore
  rw [hs]
  simp only [Option.getD_some, if_neg (by omega : ¬ (s.window_seconds : ℤ) < now - t0)]
  by_cases h : s.requests_limit ≤ c
  · rw [if_pos h, if_neg (by omega)]
    simp [RateLimiter.storeAt, decide_eq_false (by omega : ¬ c < s.requests_limit)]
  · rw [if_neg h, if_pos (by omega)]
    simp [RateLimiter.storeAt, decide_eq_true (by omega : c < s.requests_limit)]

/-- `admitCore` at an absent key: the `defaultdict` creates a zero-count
entry starting now; the decision is `0 < requests_limit`. -/
theorem admitCore_of_absent (s : RateLimiter) (key : String) (now : ℤ)
    (hs : s.storage key = none) :
    s.admitCore key now =
      (decide (0 < s.requests_limit),
        s.storeAt key ⟨if 0 < s.requests_limit then 1 else 0, now⟩) := by
  unfold RateLimiter.admitCore
  rw [hs]
  simp only [Option.getD_none, if_neg (by omega : ¬ (s.window_seconds : ℤ) < now - now)]
  by_cases h : s.requests_limit ≤ 0
  · rw [if_pos h, if_neg (by omega)]
    simp [RateLimiter.storeAt, decide_eq_false (by omega : ¬ 0 < s.requests_limit)]
  · rw [if_neg h, if_pos (by omega)]
    simp [RateLimiter.storeAt, decide_eq_true (by omega : 0 < s.requests_limit)]

/-- `admitCore` at a key whose entry's window has expired: the entry is
reset to start now, and the decision is `0 < requests_limit`. -/
theorem admitCore_of_expired (s : RateLimiter) (key : String) (now : ℤ)
    (c : Nat) (t0 : ℤ) (hs : s.storage key = some ⟨c, t0⟩)
    (hw : (s.window_seconds : ℤ) < now - t0) :
    s.admitCore key now =
      (decide (0 < s.requests_limit),
        s.storeAt key ⟨if 0 < s.requests_limit then 1 else 0, now⟩) := by
  unfold RateLimiter.admitCore
  rw [hs]
  simp only [Option.getD_some, if_pos hw]
  by_cases h : s.requests_limit ≤ 0
  · rw [if_pos h, if_neg (by omega)]
    simp [RateLimiter.storeAt, decide_eq_false (by omega : ¬ 0 < s.requests_limit)]
  · rw [if_neg h, if_pos (by omega)]
    simp [RateLimiter.storeAt, decide_eq_true (by omega : 0 < s.requests_limit)]

/-! ## Masking-policy claims -/

/-- Claim C1: for every pair of distinct forward outcomes, rendering them in
the PRODUCTION environment produces responses identical in status code, body
and the fixed masked marker header: the status is the single neutral code
204, the body is empty, and the marker header `x-m-r: 1` is present. -/
theorem claim_C1_production_indistinguishable (o1 o2 : MaskedResponse) (_h : o1 ≠ o2) :
    (MaskedResponse.render .PRODUCTION o1).status_code = 204 ∧
    (MaskedResponse.render .PRODUCTION o1).body = [] ∧
    (MaskedResponse.render .PRODUCTION o1).x_m_r = some "1" ∧
    (MaskedResponse.render .PRODUCTION o1).status_code
      = (MaskedResponse.render .PRODUCTION o2).status_code ∧
    (MaskedResponse.render .PRODUCTION o1).body = (MaskedResponse.render .PRODUCTION o2).body ∧
    (MaskedResponse.render .PRODUCTION o1).x_m_r = (MaskedResponse.render .PRODUCTION o2).x_m_r := by
  simp [MaskedResponse.render, Environment.is_production]

/-- Witness for C1 at two concrete distinct outcomes. -/
theorem claim_C1_witness :
    (⟨200, bstr "ok", some "application/json"⟩ : MaskedResponse) ≠ ⟨502, [], none⟩ ∧
    ((MaskedResponse.render .PRODUCTION ⟨200, bstr "ok", some "application/json"⟩).status_code = 204 ∧
     (MaskedResponse.render .PRODUCTION ⟨200, bstr "ok", some "application/json"⟩).body = [] ∧
     (MaskedResponse.render .PRODUCTION ⟨200, bstr "ok", some "application/json"⟩).x_m_r = some "1" ∧
     (MaskedResponse.render .PRODUCTION ⟨200, bstr "ok", some "application/json"⟩).status_code
       = (MaskedResponse.render .PRODUCTION ⟨502, [], none⟩).status_code ∧
     (MaskedResponse.render .PRODUCTION ⟨200, bstr "ok", some "application/json"⟩).body
       = (MaskedResponse.render .PRODUCTION ⟨502, [], none⟩).body ∧
     (MaskedResponse.render .PRODUCTION ⟨200, bstr "ok", some "application/json"⟩).x_m_r
       = (MaskedResponse.render .PRODUCTION ⟨502, [], none⟩).x_m_r) :=
  ⟨by decide, claim_C1_production_indistinguishable _ _ (by decide)⟩

/-- Claim C2: in TESTING, DEVELOPMENT and STAGING the masking policy is the
identity: the externally observable response has the same status code, body
and content type as the outcome, and no masking marker header is added. -/
theorem claim_C2_nonproduction_passthrough (env : Environment) (o : MaskedResponse)
    (h : env = .TESTING ∨ env = .DEVELOPMENT ∨ env = .STAGING) :
    MaskedResponse.render env o = ⟨o.status_code, o.body, o.media_type, none⟩ := by
  rcases h with h | h | h <;> subst h <;> rfl

/-- Witness for C2 at a concrete environment and outcome. -/
theorem claim_C2_witness :
    ((Environment.STAGING = .TESTING ∨ Environment.STAGING = .DEVELOPMENT
       ∨ Environment.STAGING = .STAGING) ∧
     MaskedResponse.render .STAGING ⟨502, bstr "Failed to forward traces", some "text/plain"⟩
       = ⟨502, bstr "Failed to forward traces", some "text/plain", none⟩) :=
  ⟨by decide,
   claim_C2_nonproduction_passthrough .STAGING ⟨502, bstr "Failed to forward traces",
     some "text/plain"⟩ (by decide)⟩

/-! ## Fixed-window admission claims -/

/-- Consecutive `is_allowed` calls for one key, all within the window that
started at `t0`: the `i`-th call starting from stored count `c` decides
`c + i < requests_limit`, the entry's window start never moves, and the
count advances only on admissions. -/
theorem runWith_in_window (ts : List ℤ) (key : String) :
    ∀ (s : RateLimiter) (c : Nat) (t0 : ℤ), s.storage key = some ⟨c, t0⟩ →
    (∀ t ∈ ts, t - t0 ≤ (s.window_seconds : ℤ)) →
    (runWith RateLimiter.is_allowed s (ts.map (fun t => (key, t)))).1 =
      (List.range ts.length).map (fun i => decide (c + i < s.requests_limit)) := by
  induction ts with
  | nil =>
    intro s c t0 hs hts
    simp [runWith]
  | cons t ts ih =>
    intro s c t0 hs hts
    have htw : t - t0 ≤ (s.window_seconds : ℤ) := hts t (List.mem_cons_self _ _)
    have hkeep : (s.maybe_cleanup t).storage key = some ⟨c, t0⟩ :=
      maybe_cleanup_storage_keeps s t key ⟨c, t0⟩ hs (by dsimp; omega)
    have hcore := admitCore_of_fresh (s.maybe_cleanup t) key t c t0 hkeep
      (by rw [maybe_cleanup_window_seconds]; exact htw)
    rw [maybe_cleanup_requests_limit] at hcore
    have hstep : RateLimiter.is_allowed s key t =
        (decide (c < s.requests_limit),
          (s.maybe_cleanup t).storeAt key ⟨if c < s.requests_limit then c + 1 else c, t0⟩) := by
      rw [RateLimiter.is_allowed, hcore]
    have hs' : (RateLimiter.is_allowed s key t).2.storage key
        = some ⟨if c < s.requests_limit then c + 1 else c, t0⟩ := by
      rw [hstep]; exact storeAt_storage_self _ _ _
    have hw' : (RateLimiter.is_allowed s key t).2.window_seconds = s.window_seconds := by
      rw [hstep, storeAt_window_seconds]; exact maybe_cleanup_window_seconds s t
    have hl' : (RateLimiter.is_allowed s key t).2.requests_limit = s.requests_limit := by
      rw [hstep, storeAt_requests_limit]; exact maybe_cleanup_requests_limit s t
    have htail := ih (RateLimiter.is_allowed s key t).2
      (if c < s.requests_limit then c + 1 else c) t0 hs'
      (by intro t' ht'; rw [hw']; exact hts t' (List.mem_cons_of_mem _ ht'))
    simp only [List.map_cons, runWith, htail, hl']
    rw [List.length_cons, List.range_succ_eq_map, List.map_cons, List.map_map]
    congr 1
    · simp [hstep]
    · apply List.map_congr_left
      intro i _
      simp only [Function.comp]
      rw [decide_eq_decide]
      by_cases hc : c < s.requests_limit
      · rw [if_pos hc]; omega
      · rw [if_neg hc]; omega

/-- `range (L+1)` mapped through `i < L` is `L` admissions then a denial. -/
theorem range_map_decide_lt (L : Nat) :
    (List.range (L + 1)).map (fun i => decide (i < L)) = List.replicate L true ++ [false] := by
  rw [List.range_succ, List.map_append]
  congr 1
  · apply List.eq_replicate_iff.mpr
    refine ⟨by simp, ?_⟩
    intro b hb
    rw [List.mem_map] at hb
    obtain ⟨i, hi, rfl⟩ := hb
    exact decide_eq_true (List.mem_range.mp hi)
  · simp

/-- Claim C3: starting from a state with no prior usage of `key`, the first
`requests_limit` calls for `key` made within `window_seconds` of the first
call all return `true`, and the `(requests_limit+1)`-th call within the
same window returns `false`. -/
theorem claim_C3_limit_exhaustion (s : RateLimiter) (key : String) (t0 : ℤ) (ts : List ℤ)
    (hnone : s.storage key = none)
    (hlen : ts.length = s.requests_limit)
    (hin : ∀ t ∈ ts, t - t0 ≤ (s.window_seconds : ℤ)) :
    (runWith RateLimiter.is_allowed s ((t0 :: ts).map (fun t => (key, t)))).1 =
      List.replicate s.requests_limit true ++ [false] := by
  have hkeep : (s.maybe_cleanup t0).storage key = none :=
    maybe_cleanup_storage_none s t0 key hnone
  have hcore := admitCore_of_absent (s.maybe_cleanup t0) key t0 hkeep
  rw [maybe_cleanup_requests_limit] at hcore
  have hstep : RateLimiter.is_allowed s key t0 =
      (decide (0 < s.requests_limit),
        (s.maybe_cleanup t0).storeAt key ⟨if 0 < s.requests_limit then 1 else 0, t0⟩) := by
    rw [RateLimiter.is_allowed, hcore]
  have hs' : (RateLimiter.is_allowed s key t0).2.storage key
      = some ⟨if 0 < s.requests_limit then 1 else 0, t0⟩ := by
    rw [hstep]; exact storeAt_storage_self _ _ _
  have hw' : (RateLimiter.is_allowed s key t0).2.window_seconds = s.window_seconds := by
    rw [hstep, storeAt_window_seconds]; exact maybe_cleanup_window_seconds s t0
  have hl' : (RateLimiter.is_allowed s key t0).2.requests_limit = s.requests_limit := by
    rw [hstep, storeAt_requests_limit]; exact maybe_cleanup_requests_limit s t0
  have htail := runWith_in_window ts key (RateLimiter.is_allowed s key t0).2
    (if 0 < s.requests_limit then 1 else 0) t0 hs'
    (by intro t' ht'; rw [hw']; exact hin t' ht')
  simp only [List.map_cons, runWith, htail, hl', hlen]
  by_cases hL : 0 < s.requests_limit
  case neg =>
    have h0 : s.requests_limit = 0 := by omega
    simp [hstep, h0]
  case pos =>
    rw [← range_map_decide_lt s.requests_limit]
    rw [List.range_succ_eq_map, List.map_cons, List.map_map]
    congr 1
    · rw [hstep]
    · apply List.map_congr_left
      intro i _
      simp only [Function.comp]
      rw [decide_eq_decide, if_pos hL]
      omega

/-- Witness for C3: limit 2, window 1, three calls for key "A" at times
0, 0, 1 give true, true, false. -/
theorem claim_C3_witness :
    (RateLimiter.init 2 1 0).storage "A" = none ∧
    ([0, 1] : List ℤ).length = (RateLimiter.init 2 1 0).requests_limit ∧
    (∀ t ∈ ([0, 1] : List ℤ), t - 0 ≤ ((RateLimiter.init 2 1 0).window_seconds : ℤ)) ∧
    (runWith RateLimiter.is_allowed (RateLimiter.init 2 1 0)
        ((0 :: [0, 1]).map (fun t => ("A", t)))).1 =
      List.replicate (RateLimiter.init 2 1 0).requests_limit true ++ [false] :=
  ⟨rfl, rfl, by decide,
   claim_C3_limit_exhaustion (RateLimiter.init 2 1 0) "A" 0 [0, 1] rfl rfl (by decide)⟩

theorem is_allowed_requests_limit (s : RateLimiter) (key : String) (now : ℤ) :
    (s.is_allowed key now).2.requests_limit = s.requests_limit := by
  rw [RateLimiter.is_allowed, admitCore_requests_limit, maybe_cleanup_requests_limit]

theorem is_allowed_window_seconds (s : RateLimiter) (key : String) (now : ℤ) :
    (s.is_allowed key now).2.window_seconds = s.window_seconds := by
  rw [RateLimiter.is_allowed, admitCore_window_seconds, maybe_cleanup_window_seconds]

/-- A limiter holding one entry for key "A" that has already used its whole
limit of 2 in the window starting at time 0. -/
def exhaustedLimiter : RateLimiter :=
  ⟨2, 1, updateStorage (fun _ => none) "A" ⟨2, 0⟩, 0⟩

/-- A limiter with `requests_limit = 0`: every call is denied, even after
the key's window has fully elapsed. -/
def zeroLimitLimiter : RateLimiter :=
  ⟨0, 1, updateStorage (fun _ => none) "A" ⟨0, 0⟩, 0⟩

/-- Counterexample to claim C4 as stated: with `requests_limit = 0`, key "A"
has `window_start = 0` and `window_seconds = 1`; at time 2 the window has
elapsed (`2 - 0 > 1`), yet `is_allowed` returns `false`, not `true` — with
limit 0 the reset count 0 still satisfies `count >= requests_limit`. -/
theorem claim_C4_counterexample :
    ((zeroLimitLimiter.window_seconds : ℤ) < 2 - 0) ∧
    zeroLimitLimiter.storage "A" = some ⟨0, 0⟩ ∧
    (zeroLimitLimiter.is_allowed "A" 2).1 = false := by
  refine ⟨by decide, by decide, ?_⟩
  decide

/-- Claim C4 (amended): provided the configured limit is at least 1, once
`window_seconds` have elapsed since a key's `window_start`, the next
`is_allowed` call for that key returns `true` regardless of the count
accumulated in the prior window, and that call resets the key's window:
the stored entry becomes count 1 (the admitted call itself) with
`window_start` set to the current time. -/
theorem claim_C4_window_reset (s : RateLimiter) (key : String) (now : ℤ) (c : Nat) (t0 : ℤ)
    (hpos : 0 < s.requests_limit)
    (hs : s.storage key = some ⟨c, t0⟩)
    (hexp : (s.window_seconds : ℤ) < now - t0) :
    (s.is_allowed key now).1 = true ∧
    (s.is_allowed key now).2.storage key = some ⟨1, now⟩ := by
  rcases maybe_cleanup_storage_cases s now key with hc | ⟨hcnone, _⟩
  · have hsc : (s.maybe_cleanup now).storage key = some ⟨c, t0⟩ := by rw [hc, hs]
    have hcore := admitCore_of_expired (s.maybe_cleanup now) key now c t0 hsc
      (by rw [maybe_cleanup_window_seconds]; exact hexp)
    rw [maybe_cleanup_requests_limit] at hcore
    rw [RateLimiter.is_allowed, hcore]
    exact ⟨decide_eq_true hpos, by rw [storeAt_storage_self, if_pos hpos]⟩
  · have hcore := admitCore_of_absent (s.maybe_cleanup now) key now hcnone
    rw [maybe_cleanup_requests_limit] at hcore
    rw [RateLimiter.is_allowed, hcore]
    exact ⟨decide_eq_true hpos, by rw [storeAt_storage_self, if_pos hpos]⟩

/-- Witness for the amended C4: a key that exhausted limit 2 in the window
starting at 0 is admitted again at time 2 (window 1 elapsed), and its entry
is reset to count 1 starting at time 2. -/
theorem claim_C4_witness :
    0 < exhaustedLimiter.requests_limit ∧
    exhaustedLimiter.storage "A" = some ⟨2, 0⟩ ∧
    ((exhaustedLimiter.window_seconds : ℤ) < 2 - 0) ∧
    (exhaustedLimiter.is_allowed "A" 2).1 = true ∧
    (exhaustedLimiter.is_allowed "A" 2).2.storage "A" = some ⟨1, 2⟩ :=
  ⟨by decide, by decide, by decide,
   (claim_C4_window_reset exhaustedLimiter "A" 2 2 0 (by decide) (by decide) (by decide)).1,
   (claim_C4_window_reset exhaustedLimiter "A" 2 2 0 (by decide) (by decide) (by decide)).2⟩

/-- A limiter due for a sweep at time 13 (`13 - 0 ≥ 10 × 1`), holding a key
"A" whose window started at time 12. -/
def sweepLimiter : RateLimiter :=
  ⟨2, 1, updateStorage (fun _ => none) "A" ⟨1, 12⟩, 0⟩

theorem maybe_cleanup_of_skip (s : RateLimiter) (now : ℤ)
    (h : now - s.last_cleanup < 10 * (s.window_seconds : ℤ)) :
    s.maybe_cleanup now = s := by
  unfold RateLimiter.maybe_cleanup
  rw [if_pos h]

theorem maybe_cleanup_of_run (s : RateLimiter) (now : ℤ)
    (h : ¬ now - s.last_cleanup < 10 * (s.window_seconds : ℤ)) :
    s.maybe_cleanup now = { s with
      last_cleanup := now
      storage := fun k =>
        match s.storage k with
        | some v => if v.start_time < now - 2 * (s.window_seconds : ℤ) then none else some v
        | none => none } := by
  unfold RateLimiter.maybe_cleanup
  rw [if_neg h]

/-- Claim C9: the opportunistic cleanup never removes an entry whose
`window_start` is within `2 × window_seconds` of the current time, and
running cleanup again at the same time removes nothing further and leaves
the limiter state unchanged. -/
theorem claim_C9_cleanup_safe_idempotent (s : RateLimiter) (now : ℤ) (key : String)
    (v : RateLimitItem) :
    (s.storage key = some v → now - v.start_time ≤ 2 * (s.window_seconds : ℤ) →
      (s.maybe_cleanup now).storage key = some v) ∧
    (s.maybe_cleanup now).maybe_cleanup now = s.maybe_cleanup now := by
  constructor
  · intro hs hfresh
    exact maybe_cleanup_storage_keeps s now key v hs (by omega)
  · by_cases h : now - s.last_cleanup < 10 * (s.window_seconds : ℤ)
    · have e := maybe_cleanup_of_skip s now h
      rw [e]
      exact e
    · have e := maybe_cleanup_of_run s now h
      rw [e]
      by_cases h2 : (0:ℤ) < 10 * (s.window_seconds : ℤ)
      · apply maybe_cleanup_of_skip
        dsimp
        omega
      · rw [maybe_cleanup_of_run _ now (by dsimp; omega)]
        congr 1
        funext k
        dsimp
        cases hv : s.storage k with
        | none => simp
        | some w =>
          by_cases hst : w.start_time < now - 2 * (s.window_seconds : ℤ)
          · simp [hst]
          · simp [hst]

/-- Witness for C9: at time 13 the sweep of `sweepLimiter` actually runs
(last cleanup was at 0, window 1), keeps the entry for "A" whose window
started at 12 (within `2 × 1` of 13), and a second sweep at 13 changes
nothing. -/
theorem claim_C9_witness :
    ((sweepLimiter.maybe_cleanup 13).storage "A" = some ⟨1, 12⟩) ∧
    ((sweepLimiter.maybe_cleanup 13).maybe_cleanup 13 = sweepLimiter.maybe_cleanup 13) :=
  ⟨(claim_C9_cleanup_safe_idempotent sweepLimiter 13 "A" ⟨1, 12⟩).1 (by decide) (by decide),
   (claim_C9_cleanup_safe_idempotent sweepLimiter 13 "A" ⟨1, 12⟩).2⟩

/-! ## Observational purity of the cleanup sweep -/

/-- Relation between the storage of a limiter with cleanup enabled (`A`) and
the storage of the never-deleting limiter (`B`): each key either agrees, or
was deleted in `A` while `B` still holds an entry so stale (its window start
more than `2 × window_seconds` before every future call time, bounded below
by `T`) that the next access is a window reset either way. -/
def StateRel (W : Nat) (T : ℤ) (A B : String → Option RateLimitItem) : Prop :=
  ∀ k, A k = B k ∨
    (A k = none ∧ ∃ v, B k = some v ∧ 2 * (W : ℤ) < T - v.start_time)

theorem staterel_mono (W : Nat) (T T' : ℤ) (A B : String → Option RateLimitItem)
    (h : StateRel W T A B) (hT : T ≤ T') : StateRel W T' A B := by
  intro k
  rcases h k with heq | ⟨ha, v, hb, hv⟩
  · exact Or.inl heq
  · exact Or.inr ⟨ha, v, hb, by omega⟩

theorem staterel_cleanup (s : RateLimiter) (B : String → Option RateLimitItem) (t : ℤ)
    (hrel : StateRel s.window_seconds t s.storage B) :
    StateRel s.window_seconds t (s.maybe_cleanup t).storage B := by
  intro k
  rcases maybe_cleanup_storage_cases s t k with hc | ⟨hnone, v, hv, hstale⟩
  · rw [hc]
    exact hrel k
  · refine Or.inr ⟨hnone, ?_⟩
    rcases hrel k with heq | ⟨hA, v', hB, hst⟩
    · exact ⟨v, by rw [← heq, hv], by omega⟩
    · rw [hA] at hv
      cases hv

theorem staterel_update (W : Nat) (T : ℤ) (A B : String → Option RateLimitItem)
    (key : String) (item : RateLimitItem) (hrel : StateRel W T A B) :
    StateRel W T (updateStorage A key item) (updateStorage B key item) := by
  intro k
  by_cases h : k = key
  · subst h
    exact Or.inl (by rw [updateStorage_self, updateStorage_self])
  · rw [updateStorage_other _ _ _ _ h, updateStorage_other _ _ _ _ h]
    exact hrel k

theorem storeAt_storage_eq (s : RateLimiter) (key : String) (item : RateLimitItem) :
    (s.storeAt key item).storage = updateStorage s.storage key item := rfl

/-- One call on related states: the limiter with cleanup and the
never-deleting limiter return the same decision, and their storages stay
related at the call time. -/
theorem step_rel (A B : RateLimiter) (key : String) (t T : ℤ)
    (hlim : A.requests_limit = B.requests_limit)
    (hwin : A.window_seconds = B.window_seconds)
    (hrel : StateRel A.window_seconds T A.storage B.storage)
    (hT : T ≤ t) :
    (A.is_allowed key t).1 = (B.is_allowed_nodelete key t).1 ∧
    StateRel A.window_seconds t (A.is_allowed key t).2.storage
      (B.is_allowed_nodelete key t).2.storage := by
  have hrel1 : StateRel A.window_seconds t (A.maybe_cleanup t).storage B.storage :=
    staterel_cleanup A B.storage t (staterel_mono _ T t _ _ hrel hT)
  have hlim1 : (A.maybe_cleanup t).requests_limit = B.requests_limit := by
    rw [maybe_cleanup_requests_limit, hlim]
  have hwin1 : (A.maybe_cleanup t).window_seconds = B.window_seconds := by
    rw [maybe_cleanup_window_seconds, hwin]
  rw [RateLimiter.is_allowed, RateLimiter.is_allowed_nodelete]
  rcases hrel1 key with heq | ⟨hA, v, hB, hstale⟩
  · cases hv : B.storage key with
    | none =>
      rw [admitCore_of_absent (A.maybe_cleanup t) key t (by rw [heq, hv]),
        admitCore_of_absent B key t hv, hlim1]
      refine ⟨rfl, ?_⟩
      rw [storeAt_storage_eq, storeAt_storage_eq]
      exact staterel_update _ _ _ _ _ _ hrel1
    | some v =>
      by_cases hexp : (B.window_seconds : ℤ) < t - v.start_time
      · rw [admitCore_of_expired (A.maybe_cleanup t) key t v.count v.start_time
            (by rw [heq, hv]) (by rw [hwin1]; exact hexp),
          admitCore_of_expired B key t v.count v.start_time (by rw [hv]) hexp, hlim1]
        refine ⟨rfl, ?_⟩
        rw [storeAt_storage_eq, storeAt_storage_eq]
        exact staterel_update _ _ _ _ _ _ hrel1
      · rw [admitCore_of_fresh (A.maybe_cleanup t) key t v.count v.start_time
            (by rw [heq, hv]) (by rw [hwin1]; omega),
          admitCore_of_fresh B key t v.count v.start_time (by rw [hv]) (by omega), hlim1]
        refine ⟨rfl, ?_⟩
        rw [storeAt_storage_eq, storeAt_storage_eq]
        exact staterel_update _ _ _ _ _ _ hrel1
  · have hexp : (B.window_seconds : ℤ) < t - v.start_time := by
      rw [← hwin]
      omega
    rw [admitCore_of_absent (A.maybe_cleanup t) key t hA,
      admitCore_of_expired B key t v.count v.start_time (by rw [hB]) hexp, hlim1]
    refine ⟨rfl, ?_⟩
    rw [storeAt_storage_eq, storeAt_storage_eq]
    exact staterel_update _ _ _ _ _ _ hrel1

theorem is_allowed_nodelete_requests_limit (s : RateLimiter) (key : String) (now : ℤ) :
    (s.is_allowed_nodelete key now).2.requests_limit = s.requests_limit :=
  admitCore_requests_limit s key now

theorem is_allowed_nodelete_window_seconds (s : RateLimiter) (key : String) (now : ℤ) :
    (s.is_allowed_nodelete key now).2.window_seconds = s.window_seconds :=
  admitCore_window_seconds s key now

/-- Running any monotone-in-time call sequence on related limiters yields
identical decision sequences. -/
theorem runWith_rel : ∀ (calls : List (String × ℤ)) (A B : RateLimiter) (T : ℤ),
    A.requests_limit = B.requests_limit →
    A.window_seconds = B.window_seconds →
    StateRel A.window_seconds T A.storage B.storage →
    (∀ c ∈ calls, T ≤ c.2) →
    List.Pairwise (fun a b => a.2 ≤ b.2) calls →
    (runWith RateLimiter.is_allowed A calls).1 =
      (runWith RateLimiter.is_allowed_nodelete B calls).1 := by
  intro calls
  induction calls with
  | nil =>
    intro A B T _ _ _ _ _
    rfl
  | cons c rest ih =>
    intro A B T hlim hwin hrel hcalls hpair
    obtain ⟨k, t⟩ := c
    have hT : T ≤ t := hcalls (k, t) (List.mem_cons_self _ _)
    have hstep := step_rel A B k t T hlim hwin hrel hT
    have hlim' : (A.is_allowed k t).2.requests_limit
        = (B.is_allowed_nodelete k t).2.requests_limit := by
      rw [is_allowed_requests_limit, is_allowed_nodelete_requests_limit, hlim]
    have hwin' : (A.is_allowed k t).2.window_seconds
        = (B.is_allowed_nodelete k t).2.window_seconds := by
      rw [is_allowed_window_seconds, is_allowed_nodelete_window_seconds, hwin]
    have hrest := ih (A.is_allowed k t).2 (B.is_allowed_nodelete k t).2 t hlim' hwin'
      (by rw [is_allowed_window_seconds]; exact hstep.2)
      (by
        intro c hc
        exact (List.pairwise_cons.mp hpair).1 c hc)
      (List.pairwise_cons.mp hpair).2
    simp only [runWith, hstep.1, hrest]

/-- Claim C10: starting from a freshly initialised limiter, the sequence of
boolean decisions produced with the opportunistic cleanup enabled equals the
decisions of an otherwise identical limiter that never deletes entries, for
every sequence of calls whose times are non-decreasing (the monotonic
clock): deleting a stale entry and lazily recreating it gives the same
decision as resetting its expired window. -/
theorem claim_C10_cleanup_observationally_pure (limit window : Nat) (t0 : ℤ)
    (calls : List (String × ℤ))
    (hmono : List.Pairwise (fun a b => a.2 ≤ b.2) calls) :
    (runWith RateLimiter.is_allowed (RateLimiter.init limit window t0) calls).1 =
      (runWith RateLimiter.is_allowed_nodelete (RateLimiter.init limit window t0) calls).1 := by
  cases calls with
  | nil => rfl
  | cons c rest =>
    refine runWith_rel (c :: rest) _ _ c.2 rfl rfl (fun k => Or.inl rfl) ?_ hmono
    intro x hx
    rcases List.mem_cons.mp hx with h | h
    · rw [h]
    · exact (List.pairwise_cons.mp hmono).1 x h

/-- Witness for C10: limit 1, window 1, initialised at time 0; the call at
time 25 triggers a sweep that deletes the stale entries for "A" and "B",
yet both limiters return the same decisions. -/
theorem claim_C10_witness :
    List.Pairwise (fun (a : String × ℤ) (b : String × ℤ) => a.2 ≤ b.2)
      [("A", 0), ("A", 0), ("B", 3), ("A", 25)] ∧
    (runWith RateLimiter.is_allowed (RateLimiter.init 1 1 0)
        [("A", 0), ("A", 0), ("B", 3), ("A", 25)]).1 =
      (runWith RateLimiter.is_allowed_nodelete (RateLimiter.init 1 1 0)
        [("A", 0), ("A", 0), ("B", 3), ("A", 25)]).1 :=
  ⟨by decide,
   claim_C10_cleanup_observationally_pure 1 1 0 [("A", 0), ("A", 0), ("B", 3), ("A", 25)]
     (by decide)⟩

/-! ## Lemmas about the traces handler -/

theorem is_production_eq_false (env : Environment) (h : env ≠ .PRODUCTION) :
    env.is_production = false := by
  cases env <;> simp_all [Environment.is_production]

theorem render_status_nonproduction (env : Environment) (r : MaskedResponse)
    (h : env ≠ .PRODUCTION) : (MaskedResponse.render env r).status_code = r.status_code := by
  rw [MaskedResponse.render, is_production_eq_false env h]
  rfl

theorem handleTraces_of_selector_error (st : Settings) (rl : RateLimiter) (now : ℤ)
    (req : TracesRequest)
    (up : DataReceiver → List Nat → List (String × String) → UpstreamResult)
    (e : ProxyError)
    (hsel : get_otel_client (headerGet req.headers "x-data-type") = .error e) :
    handleTraces st rl now req up = ⟨.errorResponse e, rl, 0, false, false, false⟩ := by
  unfold handleTraces
  rw [hsel]

theorem handleTraces_of_selector_ok (st : Settings) (rl : RateLimiter) (now : ℤ)
    (req : TracesRequest)
    (up : DataReceiver → List Nat → List (String × String) → UpstreamResult)
    (recv : DataReceiver)
    (hsel : get_otel_client (headerGet req.headers "x-data-type") = .ok recv) :
    handleTraces st rl now req up = tracesHandlerBody st rl now req recv up := by
  unfold handleTraces
  rw [hsel]

theorem tracesHandlerBody_of_allowed (st : Settings) (rl : RateLimiter) (now : ℤ)
    (req : TracesRequest) (recv : DataReceiver)
    (up : DataReceiver → List Nat → List (String × String) → UpstreamResult)
    (hallow : (rl.is_allowed (req.client_host.getD "unknown") now).1 = true) :
    tracesHandlerBody st rl now req recv up =
      tracesSizeStage st (rl.is_allowed (req.client_host.getD "unknown") now).2 req recv up := by
  simp only [tracesHandlerBody, hallow]
  rfl

theorem tracesHandlerBody_of_denied (st : Settings) (rl : RateLimiter) (now : ℤ)
    (req : TracesRequest) (recv : DataReceiver)
    (up : DataReceiver → List Nat → List (String × String) → UpstreamResult)
    (hdeny : (rl.is_allowed (req.client_host.getD "unknown") now).1 = false) :
    tracesHandlerBody st rl now req recv up =
      if st.ENVIRONMENT.is_production then
        ⟨.response empty204, (rl.is_allowed (req.client_host.getD "unknown") now).2,
          1, false, false, false⟩
      else
        ⟨.response tooManyRequests429, (rl.is_allowed (req.client_host.getD "unknown") now).2,
          1, false, false, false⟩ := by
  simp only [tracesHandlerBody, hdeny]
  rfl

theorem tracesBodyStage_allowCalls (st : Settings) (rl : RateLimiter) (req : TracesRequest)
    (recv : DataReceiver)
    (up : DataReceiver → List Nat → List (String × String) → UpstreamResult) :
    (tracesBodyStage st rl req recv up).allowCalls = 1 := by
  unfold tracesBodyStage
  repeat' split
  all_goals rfl

theorem tracesSizeStage_allowCalls (st : Settings) (rl : RateLimiter) (req : TracesRequest)
    (recv : DataReceiver)
    (up : DataReceiver → List Nat → List (String × String) → UpstreamResult) :
    (tracesSizeStage st rl req recv up).allowCalls = 1 := by
  unfold tracesSizeStage
  repeat' split
  all_goals first
    | rfl
    | apply tracesBodyStage_allowCalls

/-- The `Content-Length` pre-check passes: the header is absent, empty, or
declares a size within the configured maximum. -/
def clPrecheckPasses (st : Settings) (req : TracesRequest) : Prop :=
  ∀ cl, headerGet req.headers "content-length" = some cl → cl ≠ "" →
    ∃ n, pyInt? cl = some n ∧ n ≤ (st.MAX_BODY_SIZE : Int)

theorem tracesSizeStage_of_precheck_passes (st : Settings) (rl : RateLimiter)
    (req : TracesRequest) (recv : DataReceiver)
    (up : DataReceiver → List Nat → List (String × String) → UpstreamResult)
    (hpass : clPrecheckPasses st req) :
    tracesSizeStage st rl req recv up = tracesBodyStage st rl req recv up := by
  unfold tracesSizeStage
  cases hcl : headerGet req.headers "content-length" with
  | none => rfl
  | some cl =>
    dsimp only
    by_cases he : cl = ""
    · rw [if_pos he]
    · rw [if_neg he]
      obtain ⟨n, hn, hle⟩ := hpass cl hcl he
      rw [hn]
      dsimp only
      rw [if_neg (by omega)]

theorem tracesBodyStage_of_oversized (st : Settings) (rl : RateLimiter)
    (req : TracesRequest) (recv : DataReceiver)
    (up : DataReceiver → List Nat → List (String × String) → UpstreamResult)
    (hbig : st.MAX_BODY_SIZE < req.body.length) :
    tracesBodyStage st rl req recv up =
      ⟨.response payloadTooLarge413, rl, 1, true, false, false⟩ := by
  unfold tracesBodyStage
  rw [if_pos hbig]

theorem tracesSizeStage_of_declared_oversize (st : Settings) (rl : RateLimiter)
    (req : TracesRequest) (recv : DataReceiver)
    (up : DataReceiver → List Nat → List (String × String) → UpstreamResult)
    (cl : String) (n : ℤ)
    (hcl : headerGet req.headers "content-length" = some cl) (he : cl ≠ "")
    (hn : pyInt? cl = some n) (hbig : (st.MAX_BODY_SIZE : ℤ) < n) :
    tracesSizeStage st rl req recv up =
      ⟨.response payloadTooLarge413, rl, 1, false, false, false⟩ := by
  unfold tracesSizeStage
  rw [hcl]
  dsimp only
  rw [if_neg he, hn]
  dsimp only
  rw [if_pos hbig]

/-! ## Claims about the traces endpoint -/

/-- Claim C5: for every admitted request to the traces endpoint whose body
exceeds the configured maximum size, the outcome outside production is
status 413, detected both when a `Content-Length` header declares a size
over the maximum (in which case the body is not read) and, when the header
is absent, empty or understates the size, by the length of the body
actually read. -/
theorem claim_C5_payload_too_large (st : Settings) (rl : RateLimiter) (now : ℤ)
    (req : TracesRequest)
    (up : DataReceiver → List Nat → List (String × String) → UpstreamResult)
    (recv : DataReceiver)
    (henv : st.ENVIRONMENT ≠ .PRODUCTION)
    (hsel : get_otel_client (headerGet req.headers "x-data-type") = .ok recv)
    (hallow : (rl.is_allowed (req.client_host.getD "unknown") now).1 = true) :
    (∀ cl n, headerGet req.headers "content-length" = some cl → cl ≠ "" →
        pyInt? cl = some n → (st.MAX_BODY_SIZE : ℤ) < n →
        (handleTraces st rl now req up).result = .response payloadTooLarge413 ∧
        (handleTraces st rl now req up).bodyRead = false ∧
        (MaskedResponse.render st.ENVIRONMENT payloadTooLarge413).status_code = 413) ∧
    (clPrecheckPasses st req → st.MAX_BODY_SIZE < req.body.length →
        (handleTraces st rl now req up).result = .response payloadTooLarge413 ∧
        (handleTraces st rl now req up).bodyRead = true ∧
        (MaskedResponse.render st.ENVIRONMENT payloadTooLarge413).status_code = 413) := by
  rw [handleTraces_of_selector_ok st rl now req up recv hsel,
    tracesHandlerBody_of_allowed st rl now req recv up hallow]
  constructor
  · intro cl n hcl he hn hbig
    rw [tracesSizeStage_of_declared_oversize st _ req recv up cl n hcl he hn hbig]
    exact ⟨rfl, rfl, by rw [render_status_nonproduction _ _ henv]; rfl⟩
  · intro hpass hbig
    rw [tracesSizeStage_of_precheck_passes st _ req recv up hpass,
      tracesBodyStage_of_oversized st _ req recv up hbig]
    exact ⟨rfl, rfl, by rw [render_status_nonproduction _ _ henv]; rfl⟩

/-- Development settings with a 10-byte body limit, for concrete runs. -/
def smallDevSettings : Settings := ⟨.DEVELOPMENT, 10⟩

/-- An upstream that answers 200. -/
def upstreamOk : DataReceiver → List Nat → List (String × String) → UpstreamResult :=
  fun _ _ _ => .response 200 (bstr "ok") (some "application/json")

/-- A request declaring `Content-Length: 11` against a 10-byte limit. -/
def oversizeDeclaredRequest : TracesRequest :=
  ⟨some "1.2.3.4",
    [("x-data-type", "opentelemetry-sdk"), ("content-type", "application/json"),
     ("content-length", "11")], []⟩

/-- A request with no `Content-Length` whose actual body has 12 bytes. -/
def oversizeActualRequest : TracesRequest :=
  ⟨some "1.2.3.4",
    [("x-data-type", "opentelemetry-sdk"), ("content-type", "application/json")],
    bstr "hello world!"⟩

/-- Witness for C5: both detection paths at concrete requests. -/
theorem claim_C5_witness :
    ((handleTraces smallDevSettings (RateLimiter.init 100 60 0) 0 oversizeDeclaredRequest
        upstreamOk).result = .response payloadTooLarge413 ∧
     (handleTraces smallDevSettings (RateLimiter.init 100 60 0) 0 oversizeDeclaredRequest
        upstreamOk).bodyRead = false ∧
     (MaskedResponse.render smallDevSettings.ENVIRONMENT payloadTooLarge413).status_code = 413) ∧
    ((handleTraces smallDevSettings (RateLimiter.init 100 60 0) 0 oversizeActualRequest
        upstreamOk).result = .response payloadTooLarge413 ∧
     (handleTraces smallDevSettings (RateLimiter.init 100 60 0) 0 oversizeActualRequest
        upstreamOk).bodyRead = true ∧
     (MaskedResponse.render smallDevSettings.ENVIRONMENT payloadTooLarge413).status_code = 413) :=
  ⟨(claim_C5_payload_too_large smallDevSettings (RateLimiter.init 100 60 0) 0
      oversizeDeclaredRequest upstreamOk .otel_collector (by decide) rfl (by decide)).1
      "11" 11 rfl (by decide) (by decide) (by decide),
   (claim_C5_payload_too_large smallDevSettings (RateLimiter.init 100 60 0) 0
      oversizeActualRequest upstreamOk .otel_collector (by decide) rfl (by decide)).2
      (fun cl h => Option.noConfusion h) (by decide)⟩

/-- A request carrying the non-numeric header `Content-Length: abc`, an
accepted data-type selector and a content type. -/
def nonNumericClRequest : TracesRequest :=
  ⟨some "1.2.3.4",
    [("x-data-type", "opentelemetry-sdk"), ("content-type", "application/json"),
     ("content-length", "abc")], []⟩

/-- Claim C6 (failing input): on a request with the non-numeric header
`Content-Length: abc`, `int(content_length)` raises a `ValueError` that no
registered exception handler catches; the handler does not terminate in a
response rendered through the masking policy, contradicting the stated
contract. -/
theorem claim_C6_uncaught_value_error :
    (handleTraces ⟨.DEVELOPMENT, 5242880⟩ (RateLimiter.init 100 60 0) 0 nonNumericClRequest
      (fun _ _ _ => .requestError "unreachable")).result = .uncaught "ValueError" := by
  decide

/-- A request whose `x-data-type` selector value "abc" is not accepted. -/
def badSelectorRequest : TracesRequest :=
  ⟨some "1.2.3.4", [("x-data-type", "abc"), ("content-type", "application/json")], []⟩

/-- Counterexample to claim C7 as stated: on a request with the unrecognized
data-type selector "abc", the selector dependency raises before the handler
body runs, so `is_allowed` is called zero times — not once — while the
request is answered with the 400 `UNEXPECTED_DATA_TYPE` error. -/
theorem claim_C7_counterexample :
    (handleTraces ⟨.DEVELOPMENT, 5242880⟩ (RateLimiter.init 100 60 0) 0 badSelectorRequest
      (fun _ _ _ => .requestError "unreachable")).allowCalls = 0 ∧
    (handleTraces ⟨.DEVELOPMENT, 5242880⟩ (RateLimiter.init 100 60 0) 0 badSelectorRequest
      (fun _ _ _ => .requestError "unreachable")).result =
      .errorResponse ⟨400, "Unexpected data type", some "UNEXPECTED_DATA_TYPE", none⟩ := by
  constructor
  · decide
  · decide

/-- Claim C7 (amended): the data-type selector is resolved as a request
dependency before the handler body, so a request with an unrecognized or
missing selector is rejected with the 400 `UNEXPECTED_DATA_TYPE` error
without consulting the rate limiter at all; on every request whose selector
resolves, `is_allowed` is called exactly once and before any other
per-request work, and a denied request yields the rate-limited outcome
(429 outside production) with no body read and no forwarding. -/
theorem claim_C7_admission_after_dependency (st : Settings) (rl : RateLimiter) (now : ℤ)
    (req : TracesRequest)
    (up : DataReceiver → List Nat → List (String × String) → UpstreamResult) :
    (∀ e, get_otel_client (headerGet req.headers "x-data-type") = .error e →
        handleTraces st rl now req up = ⟨.errorResponse e, rl, 0, false, false, false⟩) ∧
    (∀ recv, get_otel_client (headerGet req.headers "x-data-type") = .ok recv →
        (handleTraces st rl now req up).allowCalls = 1 ∧
        ((rl.is_allowed (req.client_host.getD "unknown") now).1 = false →
          st.ENVIRONMENT ≠ .PRODUCTION →
          (handleTraces st rl now req up).result = .response tooManyRequests429 ∧
          (MaskedResponse.render st.ENVIRONMENT tooManyRequests429).status_code = 429 ∧
          (handleTraces st rl now req up).bodyRead = false ∧
          (handleTraces st rl now req up).forwardedSync = false ∧
          (handleTraces st rl now req up).deferred = false)) := by
  constructor
  · intro e hsel
    exact handleTraces_of_selector_error st rl now req up e hsel
  · intro recv hsel
    rw [handleTraces_of_selector_ok st rl now req up recv hsel]
    constructor
    · cases h : (rl.is_allowed (req.client_host.getD "unknown") now).1
      · rw [tracesHandlerBody_of_denied st rl now req recv up h]
        by_cases hp : st.ENVIRONMENT.is_production = true
        · rw [if_pos hp]
        · rw [if_neg hp]
      · rw [tracesHandlerBody_of_allowed st rl now req recv up h]
        exact tracesSizeStage_allowCalls st _ req recv up
    · intro hdeny henv
      rw [tracesHandlerBody_of_denied st rl now req recv up hdeny]
      rw [is_production_eq_false st.ENVIRONMENT henv]
      refine ⟨rfl, ?_, rfl, rfl, rfl⟩
      rw [render_status_nonproduction _ _ henv]
      rfl

/-- Witness for the amended C7: the unrecognized-selector request is
answered 400 with zero limiter calls; a request with a recognized selector
against a limit-0 limiter calls the limiter once, is denied and gets the
429 outcome with no body read and no forwarding. -/
theorem claim_C7_witness :
    handleTraces ⟨.DEVELOPMENT, 5242880⟩ (RateLimiter.init 0 60 0) 0 badSelectorRequest
        upstreamOk =
      ⟨.errorResponse ⟨400, "Unexpected data type", some "UNEXPECTED_DATA_TYPE", none⟩,
        RateLimiter.init 0 60 0, 0, false, false, false⟩ ∧
    (handleTraces ⟨.DEVELOPMENT, 5242880⟩ (RateLimiter.init 0 60 0) 0 oversizeActualRequest
        upstreamOk).allowCalls = 1 ∧
    (handleTraces ⟨.DEVELOPMENT, 5242880⟩ (RateLimiter.init 0 60 0) 0 oversizeActualRequest
        upstreamOk).result = .response tooManyRequests429 ∧
    (MaskedResponse.render Environment.DEVELOPMENT tooManyRequests429).status_code = 429 ∧
    (handleTraces ⟨.DEVELOPMENT, 5242880⟩ (RateLimiter.init 0 60 0) 0 oversizeActualRequest
        upstreamOk).bodyRead = false :=
  ⟨(claim_C7_admission_after_dependency ⟨.DEVELOPMENT, 5242880⟩ (RateLimiter.init 0 60 0) 0
      badSelectorRequest upstreamOk).1
      ⟨400, "Unexpected data type", some "UNEXPECTED_DATA_TYPE", none⟩ rfl,
   (claim_C7_admission_after_dependency ⟨.DEVELOPMENT, 5242880⟩ (RateLimiter.init 0 60 0) 0
      oversizeActualRequest upstreamOk).2 .otel_collector rfl |>.1,
   ((claim_C7_admission_after_dependency ⟨.DEVELOPMENT, 5242880⟩ (RateLimiter.init 0 60 0) 0
      oversizeActualRequest upstreamOk).2 .otel_collector rfl |>.2 (by decide) (by decide)).1,
   ((claim_C7_admission_after_dependency ⟨.DEVELOPMENT, 5242880⟩ (RateLimiter.init 0 60 0) 0
      oversizeActualRequest upstreamOk).2 .otel_collector rfl |>.2 (by decide) (by decide)).2.1,
   ((claim_C7_admission_after_dependency ⟨.DEVELOPMENT, 5242880⟩ (RateLimiter.init 0 60 0) 0
      oversizeActualRequest upstreamOk).2 .otel_collector rfl |>.2 (by decide) (by decide)).2.2.1⟩

/-! ## Claims about the request-id middleware -/

/-- Counterexample to claim C8 as stated: a caller supplies
`x-request-id: caller-id`, the freshly generated id is "fresh-uuid"; the
response carries the generated id, not the caller's — the configured
factory `lambda _: str(uuid.uuid4())` ignores the scope, so nothing is
echoed. -/
theorem claim_C8_counterexample :
    RequestIdMiddleware.responseHeaders "x-request-id" (configured_id_factory "fresh-uuid")
        ⟨[("x-request-id", "caller-id")]⟩ [] = [("x-request-id", "fresh-uuid")] ∧
    headerGet
        (RequestIdMiddleware.responseHeaders "x-request-id" (configured_id_factory "fresh-uuid")
          ⟨[("x-request-id", "caller-id")]⟩ []) "x-request-id" ≠ some "caller-id" := by
  constructor
  · decide
  · decide

/-- Claim C8 (amended): every response carries the request-identifier
header `x-request-id`, but its value is always the freshly generated id:
the configured id factory ignores the inbound request entirely, so the
response headers are the same whatever request-id header the caller
supplied, and a caller-supplied identifier is never echoed. -/
theorem claim_C8_request_id_always_fresh (uuid : String) (scope1 scope2 : HttpScope)
    (rh : List (String × String)) (huuid : uuid ≠ "") :
    ("x-request-id", uuid) ∈
      RequestIdMiddleware.responseHeaders "x-request-id" (configured_id_factory uuid)
        scope1 rh ∧
    RequestIdMiddleware.responseHeaders "x-request-id" (configured_id_factory uuid) scope1 rh
      = RequestIdMiddleware.responseHeaders "x-request-id" (configured_id_factory uuid)
          scope2 rh := by
  unfold RequestIdMiddleware.responseHeaders configured_id_factory
  rw [if_pos huuid]
  exact ⟨List.mem_append_right _ (List.mem_singleton.mpr rfl), rfl⟩

/-- Witness for the amended C8 at a concrete generated id, two scopes with
different caller-supplied request ids, and empty response headers. -/
theorem claim_C8_witness :
    ("x-request-id", "fresh-uuid") ∈
      RequestIdMiddleware.responseHeaders "x-request-id" (configured_id_factory "fresh-uuid")
        ⟨[("x-request-id", "caller-id")]⟩ [] ∧
    RequestIdMiddleware.responseHeaders "x-request-id" (configured_id_factory "fresh-uuid")
        ⟨[("x-request-id", "caller-id")]⟩ []
      = RequestIdMiddleware.responseHeaders "x-request-id" (configured_id_factory "fresh-uuid")
          ⟨[("x-request-id", "other-id")]⟩ [] :=
  claim_C8_request_id_always_fresh "fresh-uuid" ⟨[("x-request-id", "caller-id")]⟩
    ⟨[("x-request-id", "other-id")]⟩ [] (by decide)
